

import Mathlib

/-!
Verification of the download-job orchestration subsystem of the
PlaylistsRemix repository.  Each definition is a shallow embedding of the
corresponding TypeScript function; external effects (file system, sqlite,
subprocesses) are made explicit parameters so the control flow of the
source is preserved verbatim.
-/

set_option maxRecDepth 4000

/-! ## Basic string machinery shared by the embeddings

JS `String.prototype.includes`, `path.parse(file).name`, `path.basename`,
`String.prototype.toLowerCase`, `trim`, and regex replacements are modelled
on `List Char`.  All inputs appearing in the repository are ASCII, where the
models below agree with the JS semantics.
-/

/-- Decides whether `needle` is a prefix of `hay` (JS `startsWith`). -/
def listStartsWith : List Char → List Char → Bool
  | _, [] => true
  | [], _ :: _ => false
  | a :: as, b :: bs => a = b && listStartsWith as bs

/-- Decides whether `needle` occurs as a contiguous substring of `hay`
(JS `String.prototype.includes`). -/
def listContainsSub : List Char → List Char → Bool
  | [], needle => needle.isEmpty
  | a :: t, needle => listStartsWith (a :: t) needle || listContainsSub t needle

/-- JS `hay.includes(needle)` on Lean strings. -/
def strIncludes (hay needle : String) : Bool :=
  listContainsSub hay.data needle.data

/-- Node `path.parse(file).name`: the file name with its final extension
removed; a leading dot (hidden file) does not count as an extension. -/
def parseNameList (l : List Char) : List Char :=
  let revAfter := l.reverse.dropWhile (fun c => !(c = '.'))
  match revAfter with
  | [] => l
  | _ :: restRev => if restRev.isEmpty then l else restRev.reverse

/-- Node `path.parse(file).name` on strings. -/
def parseName (file : String) : String :=
  ⟨parseNameList file.data⟩

/-- Node `path.basename`: the part of the path after the final slash. -/
def pathBasename (p : String) : String :=
  ⟨((p.data.reverse.takeWhile (fun c => !(c = '/'))).reverse)⟩

/-- JS `\w` character class (ASCII word character). -/
def isWordChar (c : Char) : Bool :=
  c.isAlphanum || c = '_'

/-- JS `\s` character class, restricted to the ASCII whitespace actually
occurring in the repository's data. -/
def isSpaceChar (c : Char) : Bool :=
  c = ' ' || c = '\t' || c = '\n' || c = '\r'

/-- Replaces every maximal whitespace run by one space (`replace(/\s+/g, ' ')`).
The boolean argument records whether the previous character was whitespace. -/
def squashSpaces : List Char → Bool → List Char
  | [], _ => []
  | c :: rest, prevSpace =>
    if isSpaceChar c then
      if prevSpace then squashSpaces rest true
      else ' ' :: squashSpaces rest true
    else c :: squashSpaces rest false

/-- JS `String.prototype.trim`, for the ASCII whitespace model. -/
def trimSpaces (l : List Char) : List Char :=
  ((l.dropWhile isSpaceChar).reverse.dropWhile isSpaceChar).reverse

namespace FileMatching

/-- `normalizeString` from `app/utils/file-matching.server.ts`: lower-case,
drop characters outside `\w\s`, collapse whitespace, trim. -/
def normalizeString (s : String) : String :=
  let lowered := s.data.map Char.toLower
  let cleaned := lowered.filter (fun c => isWordChar c || isSpaceChar c)
  ⟨trimSpaces (squashSpaces cleaned false)⟩

/-- JS `String.prototype.split(' ')` on character lists; the accumulator
holds the current component reversed. -/
def splitOnSpaceAux : List Char → List Char → List (List Char)
  | [], acc => [acc.reverse]
  | c :: rest, acc =>
    if c = ' ' then acc.reverse :: splitOnSpaceAux rest []
    else splitOnSpaceAux rest (c :: acc)

/-- JS `s.split(' ')`. -/
def splitOnSpace (s : String) : List String :=
  (splitOnSpaceAux s.data []).map (fun l => ⟨l⟩)

/-- Keywords of a normalized title: words of length > 2
(`normalizedTitle.split(' ').filter(word => word.length > 2)`). -/
def titleKeywords (normalizedTitle : String) : List String :=
  (splitOnSpace normalizedTitle).filter (fun w => w.length > 2)

/-- `Math.ceil(n * 0.7)` of the keyword count, computed exactly; the JS
double computation agrees with the exact rational for these counts. -/
def ceil70 (n : Nat) : Nat := (7 * n + 9) / 10

/-- The keyword-coverage test of strategy 3 of `findMatchingFile`: at least
70% of the title keywords occur in the normalized file name. -/
def keywordStrategyMatches (kws : List String) (file : String) : Bool :=
  let fileName := normalizeString (parseName file)
  (kws.filter (fun k => strIncludes fileName k)).length ≥ ceil70 kws.length

/-- `findMatchingFile` from `app/utils/file-matching.server.ts`, with the
directory listing passed in (`fs.readdir` succeeded; a read failure or an
empty listing returns `none` exactly as in the source).  `songTitle = ""`
models the `undefined` title. -/
def findMatchingFile (files : List String) (songTitle : String)
    (artistName : Option String) : Option String :=
  if files.isEmpty then none else
  let normalizedTitle := normalizeString songTitle
  let normalizedArtist : Option String :=
    match artistName with
    | none => none
    | some a => if a = "" then none else some (normalizeString a)
  if normalizedTitle = "" then none else
  match files.find? (fun file => strIncludes (parseName file) songTitle) with
  | some exactMatch => some exactMatch
  | none =>
  match files.find? (fun file =>
      strIncludes (normalizeString (parseName file)) normalizedTitle) with
  | some normalizedMatch => some normalizedMatch
  | none =>
  let kws := titleKeywords normalizedTitle
  if kws.isEmpty then none else
  match files.find? (fun file => keywordStrategyMatches kws file) with
  | some keywordMatch => some keywordMatch
  | none =>
  match normalizedArtist with
  | some na =>
    if na = "" then none else
    files.find? (fun file =>
      let fileName := normalizeString (parseName file)
      strIncludes fileName na && kws.any (fun k => strIncludes fileName k))
  | none => none

end FileMatching

namespace SelfApi

/-- `normalizeFilename` from `app/services/selfApi.server.ts`: lower-case,
drop brackets, turn dashes/underscores into spaces, collapse whitespace,
trim. -/
def normalizeFilename (name : String) : String :=
  let lowered := name.data.map Char.toLower
  let noBrackets := lowered.filter (fun c =>
    !(c = '(' || c = ')' || c = '[' || c = ']' || c = '{' || c = '}'))
  let dashesToSpace := noBrackets.map (fun c => if c = '-' || c = '_' then ' ' else c)
  ⟨trimSpaces (squashSpaces dashesToSpace false)⟩

/-- JS `Array.prototype.join(",")`. -/
def joinComma : List String → String
  | [] => ""
  | [a] => a
  | a :: rest => a ++ "," ++ joinComma rest

/-- The first element of maximal `matchRatio`; models taking the head of the
stable descending sort in `findMatchingFile`'s keyword phase. -/
def firstMaxBy (l : List (String × Nat)) : Option (String × Nat) :=
  l.foldl (fun acc x =>
    match acc with
    | none => some x
    | some b => if x.2 > b.2 then some x else some b) none

/-- `findMatchingFile` from `app/services/selfApi.server.ts` (the
single-download path's matcher): exact variation match, two-sided
normalized containment, >50% keyword coverage (best ratio first), a
5-character-prefix match, and finally the lone remaining file. -/
def findMatchingFile (files : List String) (trackName : String)
    (artists : List String) : Option String :=
  let variations : List String :=
    [joinComma artists ++ " - " ++ trackName,
     trackName,
     normalizeFilename (joinComma artists ++ " - " ++ trackName)]
  match files.find? (fun file => variations.contains (parseName file)) with
  | some exact => some exact
  | none =>
  let normalizedFiles := files.map (fun file => (file, normalizeFilename (parseName file)))
  let variationMatch := variations.foldl (fun acc v =>
    match acc with
    | some m => some m
    | none =>
      let normalized := normalizeFilename v
      (normalizedFiles.find? (fun file =>
        strIncludes file.2 normalized || strIncludes normalized file.2)).map (·.1)) none
  match variationMatch with
  | some m => some m
  | none =>
  let keywords := (FileMatching.splitOnSpace (normalizeFilename trackName)).filter
    (fun word => word.length > 2)
  let keywordPick :=
    if keywords.isEmpty then none else
      let keywordMatches := (normalizedFiles.map (fun file =>
        (file.1, (keywords.filter (fun keyword => strIncludes file.2 keyword)).length))).filter
          (fun m => 2 * m.2 > keywords.length)
      (firstMaxBy keywordMatches).map (·.1)
  match keywordPick with
  | some m => some m
  | none =>
  let startPick :=
    if trackName.length > 5 then
      let trackStart := normalizeFilename ⟨trackName.data.take 5⟩
      (normalizedFiles.find? (fun file => strIncludes file.2 trackStart)).map (·.1)
    else none
  match startPick with
  | some m => some m
  | none =>
  if files.length = 1 then files.head? else none

end SelfApi

/-! ## Catalog store (`app/services/db.server.ts`)

The sqlite layer is modelled as a catalog of song rows plus a fault
schedule: the k-th `db.run` invocation either fails with the scheduled
error or applies its UPDATE.  `SQLITE_BUSY` is the contention error the
source's `withRetry` singles out.
-/

/-- An error raised by a catalog write; `busy` is `SQLITE_BUSY`. -/
inductive DbError where
  | busy
  | other (msg : String)
deriving Repr, DecidableEq

/-- One row of the `song` table, restricted to the columns the download
subsystem touches. -/
structure SongRow where
  id : Nat
  title : String
  artists : List String
  platform : String
  url : String
  downloaded : Bool
  localFlag : Bool
deriving Repr, DecidableEq

/-- The `song` table. -/
abbrev Catalog := List SongRow

/-- Database connection state: the catalog, a per-invocation fault schedule
(entries beyond the list mean no fault), and the number of `db.run`
invocations made so far. -/
structure DbState where
  catalog : Catalog
  faults : List (Option DbError)
  runCount : Nat
deriving Repr, DecidableEq

/-- One `db.run` invocation: consult the fault schedule, then either fail
or apply the update to the catalog. -/
def dbRun (upd : Catalog → Catalog) (st : DbState) : Except DbError Unit × DbState :=
  match st.faults.getD st.runCount none with
  | some e => (.error e, { st with runCount := st.runCount + 1 })
  | none => (.ok (), { st with catalog := upd st.catalog, runCount := st.runCount + 1 })

/-- `UPDATE song SET downloaded = ? WHERE id = ?`. -/
def setDownloadedSql (songId : Nat) (v : Bool) (c : Catalog) : Catalog :=
  c.map (fun s => if s.id = songId then { s with downloaded := v } else s)

/-- `UPDATE song SET local = ? WHERE id = ?`. -/
def setLocalSql (songId : Nat) (v : Bool) (c : Catalog) : Catalog :=
  c.map (fun s => if s.id = songId then { s with localFlag := v } else s)

/-- `updateSongDownloadStatus` from `db.server.ts`: opens a connection and
issues a single `db.run` of the UPDATE.  There is no retry wrapper in the
source; whatever error the write raises propagates to the caller. -/
def updateSongDownloadStatus (songId : Nat) (downloaded : Bool) (st : DbState) :
    Except DbError Unit × DbState :=
  dbRun (setDownloadedSql songId downloaded) st

/-- `updateSongLocalStatus` from `db.server.ts`: a single `db.run` of the
UPDATE, no retry wrapper. -/
def updateSongLocalStatus (songId : Nat) (localFlag : Bool) (st : DbState) :
    Except DbError Unit × DbState :=
  dbRun (setLocalSql songId localFlag) st

/-- The loop of `withRetry`: `fuel` counts the remaining iterations of
`for (attempt = 0; attempt <= maxRetries; attempt++)`, `lastError` the
last caught error.  A `SQLITE_BUSY` failure backs off and continues (the
sleep has no observable effect in this model); any other error is
re-thrown immediately; exhausting the loop throws `lastError`. -/
def withRetryGo (operation : DbState → Except DbError Unit × DbState) :
    Nat → Option DbError → DbState → Except DbError Unit × DbState
  | 0, lastError, st => (.error (lastError.getD (.other "null")), st)
  | fuel + 1, _, st =>
    match operation st with
    | (.ok v, st') => (.ok v, st')
    | (.error e, st') =>
      if e = .busy then withRetryGo operation fuel (some e) st'
      else (.error e, st')

/-- `withRetry` from `db.server.ts` with `maxRetries` retries (source
default 5): the loop body runs at most `maxRetries + 1` times. -/
def withRetry (operation : DbState → Except DbError Unit × DbState)
    (maxRetries : Nat) (st : DbState) : Except DbError Unit × DbState :=
  withRetryGo operation (maxRetries + 1) none st

/-! ## Archive builder (`createZipFromFilePaths` in `zipService.server.ts`)

The file system is passed in with each path: `fs.stat` classifies a path as
a regular file, a directory, or raises (nonexistent path).  Stream appends
of regular files succeed; `mkdir` of the output directory and the final
`finalize`/flush are modelled by the two boolean outcomes.
-/

/-- What `fs.stat` reports for a path. -/
inductive PathKind where
  | regular
  | directory
  | missing
deriving Repr, DecidableEq

/-- Added and failed file lists reported by the archive builder. -/
structure ZipResult where
  added : List String
  failed : List String
deriving Repr, DecidableEq

/-- The per-path loop of `createZipFromFilePaths`: regular files are
appended under their basename, directories are skipped silently, a
failing `stat` records the path in `failedFiles` and continues. -/
def zipLoop : List (String × PathKind) → List String → List String →
    List String × List String
  | [], added, failed => (added.reverse, failed.reverse)
  | (p, kind) :: rest, added, failed =>
    match kind with
    | .regular => zipLoop rest (pathBasename p :: added) failed
    | .directory => zipLoop rest added failed
    | .missing => zipLoop rest added (p :: failed)

/-- `createZipFromFilePaths` from `zipService.server.ts`: create the output
directory (fatal on failure), append each input path (individual failures
recorded, never fatal), then finalize the archive (fatal on failure). -/
def createZipFromFilePaths (filePaths : List (String × PathKind))
    (mkdirOk finalizeOk : Bool) : Except String ZipResult :=
  if !mkdirOk then .error "mkdir failed" else
  let (added, failed) := zipLoop filePaths [] []
  if !finalizeOk then .error "finalize failed" else
  .ok { added := added, failed := failed }

/-- Fault schedule injecting `SQLITE_BUSY` on the first two write attempts. -/
def busyTwiceSchedule : List (Option DbError) := [some .busy, some .busy]

/-- A one-row catalog used by the concrete runs below. -/
def song1 : SongRow :=
  { id := 1, title := "Midnight City", artists := ["M83"], platform := "Spotify",
    url := "spotify:track:1", downloaded := false, localFlag := false }

/-! ## Progress events (`emitProgress` payloads of `downloadWorker.server.ts`) -/

/-- The `type` discriminator of a `ProgressData` payload. -/
inductive EventType where
  | queued
  | progress
  | info
  | complete
  | error
  | usercancelled
deriving Repr, DecidableEq

/-- A `ProgressData` payload as emitted by the worker. -/
structure ProgressData where
  type : EventType
  progress : Option Nat
  jobId : Nat
  songName : String
  filePath : Option String
  error : Option String
  isBulk : Bool
deriving Repr, DecidableEq

/-- A `progress`-typed event. -/
def progressEv (jobId p : Nat) (name : String) (isBulk : Bool) : ProgressData :=
  ⟨.progress, some p, jobId, name, none, none, isBulk⟩

/-- An `info`-typed event. -/
def infoEv (jobId : Nat) (name : String) (isBulk : Bool) : ProgressData :=
  ⟨.info, none, jobId, name, none, none, isBulk⟩

/-- A `complete`-typed event. -/
def completeEv (jobId : Nat) (name : String) (filePath : Option String)
    (isBulk : Bool) : ProgressData :=
  ⟨.complete, none, jobId, name, filePath, none, isBulk⟩

/-- An `error`-typed event. -/
def errorEv (jobId : Nat) (name : String) (msg : String) (isBulk : Bool) : ProgressData :=
  ⟨.error, none, jobId, name, none, some msg, isBulk⟩

/-- The values carried by the `progress`-typed events of a run, in order. -/
def progressValues (evs : List ProgressData) : List Nat :=
  evs.filterMap (fun e => if e.type = .progress then e.progress else none)

/-- The number of `error`-typed events of a run. -/
def countErrorEvents (evs : List ProgressData) : Nat :=
  (evs.filter (fun e => e.type = .error)).length

/-! ## Single-track download (`processSingleDownload` and
`downloadSpotifySong`)

External effects of one download attempt are collected in `DlEnv`:
the Spotify → YouTube Music conversion outcome, the `yt-dlp` exit, and
the directory listing the matcher subsequently scans.
-/

deriving instance DecidableEq for Except

/-- Environment of one `downloadSpotifySong` invocation. -/
structure DlEnv where
  conv : Except String (Option String)
  ytdlp : Option String
  files : List String
deriving Repr, DecidableEq

/-- `downloadSpotifySong` from `selfApi.server.ts`: resolve the YouTube
Music source (a `null` result or a conversion error throws), run `yt-dlp`
(a failure throws), read the output directory (an empty listing throws
after the retries), then locate the produced file with
`SelfApi.findMatchingFile` (no match throws).  The returned string is the
matched file; the source wraps it with the original name in a JSON string
that the worker discards. -/
def downloadSpotifySong (env : DlEnv) (trackName : String) (artists : List String) :
    Except String String :=
  match env.conv with
  | .error e => .error e
  | .ok none => .error ("Could not find YouTube video for: " ++ trackName)
  | .ok (some _) =>
    match env.ytdlp with
    | some e => .error e
    | none =>
      if env.files.isEmpty then .error "No file was downloaded"
      else
        match SelfApi.findMatchingFile env.files trackName artists with
        | none => .error ("Could not find downloaded file for " ++ trackName)
        | some f => .ok f

/-- The catch block's catalog writes of `processSingleDownload`:
both flags are set to `false`; a database error there is logged and
swallowed (and aborts the second write). -/
def applyFailureUpdates (songId : Nat) (st : DbState) : DbState :=
  match updateSongDownloadStatus songId false st with
  | (.error _, st1) => st1
  | (.ok _, st1) => (updateSongLocalStatus songId false st1).2

/-- Result value of a completed single job. -/
structure SingleResult where
  status : String
  songId : Nat
deriving Repr, DecidableEq

/-- `processSingleDownload` from `downloadWorker.server.ts`: look the song
up, emit `progress 0`, download, then on success set both catalog flags
`true`, emit `progress 100` and the terminal `complete` event; on any
failure set both flags `false`, emit one `error` event and re-throw. -/
def processSingleDownload (jobId songId : Nat) (env : DlEnv) (st : DbState) :
    Except String SingleResult × DbState × List ProgressData :=
  match st.catalog.find? (fun s => s.id = songId) with
  | none =>
    let st' := applyFailureUpdates songId st
    (.error ("Song not found: " ++ toString songId), st',
     [errorEv jobId "Unknown Song" ("Song not found: " ++ toString songId) false])
  | some song =>
    let startEvents := [progressEv jobId 0 song.title false]
    match downloadSpotifySong env song.title song.artists with
    | .error e =>
      let st' := applyFailureUpdates songId st
      (.error e, st', startEvents ++ [errorEv jobId song.title e false])
    | .ok _ =>
      match updateSongDownloadStatus songId true st with
      | (.error e, st1) =>
        let st' := applyFailureUpdates songId st1
        (.error "db error", st',
         startEvents ++ [errorEv jobId song.title (dbErrorText e) false])
      | (.ok _, st1) =>
        match updateSongLocalStatus songId true st1 with
        | (.error e, st2) =>
          let st' := applyFailureUpdates songId st2
          (.error "db error", st',
           startEvents ++ [errorEv jobId song.title (dbErrorText e) false])
        | (.ok _, st2) =>
          (.ok { status := "completed", songId := songId }, st2,
           startEvents ++
             [progressEv jobId 100 song.title false,
              completeEv jobId song.title (some (toString songId)) false])
where
  dbErrorText : DbError → String
    | .busy => "SQLITE_BUSY"
    | .other m => m

/-- `attempts: 3` from the download queue's `defaultJobOptions`
(`queue.server.ts`). -/
def downloadQueueAttempts : Nat := 3

/-- Bull's queue-level retry: run `processSingleDownload` up to the given
number of attempts, stopping at the first success; events of all attempts
are concatenated in emission order. -/
def runSingleJobAttempts : Nat → Nat → Nat → DlEnv → DbState →
    Except String SingleResult × DbState × List ProgressData
  | 0, _, _, _, st => (.error "no attempts", st, [])
  | n + 1, jobId, songId, env, st =>
    match processSingleDownload jobId songId env st with
    | (.ok r, st', evs) => (.ok r, st', evs)
    | (.error e, st', evs) =>
      match n with
      | 0 => (.error e, st', evs)
      | m + 1 =>
        let (r2, st2, evs2) := runSingleJobAttempts (m + 1) jobId songId env st'
        (r2, st2, evs ++ evs2)

/-! ## Bulk download (`processBulkDownload` in `downloadWorker.server.ts`)

The external world of one bulk run: the per-song Spotify → YouTube Music
conversion outcomes, the number of download-complete markers the worker
parses from the `yt-dlp` standard output, the output-directory listing
after the process exits, and the archive finalize outcome.  Timestamps are
passed in as a string.
-/

/-- One directory entry, with what `fs.stat` reports for it. -/
structure FsEntry where
  name : String
  isFile : Bool
deriving Repr, DecidableEq

/-- JS `s.endsWith(suffix)`. -/
def strEndsWith (s suffix : String) : Bool :=
  listStartsWith s.data.reverse suffix.data.reverse

/-- JS `s.startsWith(p)`. -/
def strStartsWith (s p : String) : Bool :=
  listStartsWith s.data p.data

/-- The `audioFiles` filter of the `yt-dlp` close handler: everything that
is not a `.txt`, `.bat` or `.zip` file counts as a downloaded audio file. -/
def audioFilter (names : List String) : List String :=
  names.filter (fun file =>
    !(strEndsWith file ".txt") && !(strEndsWith file ".bat") && !(strEndsWith file ".zip"))

/-- The `songFiles` selection before zipping: skip `.zip`, `.part`, hidden
and `.txt` entries, then keep only regular files (`stats.isFile()`). -/
def songFileFilter (entries : List FsEntry) : List String :=
  (entries.filter (fun e =>
    !(strEndsWith e.name ".zip" || strEndsWith e.name ".part" ||
      strStartsWith e.name "." || strEndsWith e.name ".txt") && e.isFile)).map (fun e => e.name)

/-- `Math.round((num / den) * 100)` for `den > 0`, computed exactly. -/
def roundPct (num den : Nat) : Nat := (200 * num + den) / (2 * den)

/-- State threaded through the URL-processing loop of
`processBulkDownload`. -/
structure ConvState where
  processedUrls : List String
  convertedCount : Nat
  events : List ProgressData
deriving Repr, DecidableEq

/-- The URL-processing loop: Spotify tracks are converted (with progress
and info events before and after; a conversion failure emits an `error`
event and skips the song), other platforms contribute their stored URL
directly. -/
def bulkConvLoop (jobId spotCount : Nat) (conv : Nat → Except String String) :
    List SongRow → ConvState → ConvState
  | [], cs => cs
  | song :: rest, cs =>
    if song.platform = "Spotify" then
      let before :=
        [progressEv jobId (roundPct cs.convertedCount spotCount)
           ("Converting Spotify URLs (" ++ toString cs.convertedCount ++ "/" ++
             toString spotCount ++ ")") true,
         infoEv jobId ("Converting: \"" ++ song.title ++ "\"") true]
      match conv song.id with
      | .ok url =>
        bulkConvLoop jobId spotCount conv rest
          { processedUrls := cs.processedUrls ++ [url],
            convertedCount := cs.convertedCount + 1,
            events := cs.events ++ before ++
              [progressEv jobId (roundPct (cs.convertedCount + 1) spotCount)
                 ("Converting Spotify URLs (" ++ toString (cs.convertedCount + 1) ++ "/" ++
                   toString spotCount ++ ")") true,
               infoEv jobId ("Converted: \"" ++ song.title ++ "\"") true] }
      | .error e =>
        bulkConvLoop jobId spotCount conv rest
          { cs with events := cs.events ++ before ++
              [errorEv jobId ("Failed to convert: \"" ++ song.title ++ "\"") e true] }
    else
      bulkConvLoop jobId spotCount conv rest
        { cs with processedUrls := cs.processedUrls ++ [song.url] }

/-- Progress events produced by the download-complete markers of the
`yt-dlp` standard output (the `completedSongs` counter). -/
def markerEvents (jobId totalSongs markers : Nat) : List ProgressData :=
  (List.range markers).map (fun i =>
    progressEv jobId (roundPct (i + 1) totalSongs)
      ("Downloading " ++ toString (i + 1) ++ "/" ++ toString totalSongs ++ " songs") true)

/-- The catalog-flag loop after the archive is written: both flags of every
song of the batch are set `true`; an error for one song is logged and the
loop continues with the next song. -/
def bulkFlagUpdates : List SongRow → DbState → DbState
  | [], st => st
  | song :: rest, st =>
    match updateSongDownloadStatus song.id true st with
    | (.error _, st1) => bulkFlagUpdates rest st1
    | (.ok _, st1) => bulkFlagUpdates rest (updateSongLocalStatus song.id true st1).2

/-- The result fields persisted on the bulk job record
(`job.update`/`job.progress`). -/
structure JobData where
  zipPath : Option String
  successCount : Option Nat
  failCount : Option Nat
  progress : Nat
deriving Repr, DecidableEq

/-- Job record before any update. -/
def emptyJob : JobData := { zipPath := none, successCount := none, failCount := none, progress := 0 }

/-- Value returned by a bulk run together with the final database state,
the job record and the emitted events. -/
structure BulkResult where
  status : String
  filePath : String
  songCount : Nat
  failedCount : Nat
deriving Repr, DecidableEq

/-- Outcome of one `processBulkDownload` execution. -/
structure BulkRun where
  result : Except String BulkResult
  db : DbState
  job : JobData
  events : List ProgressData
deriving Repr, DecidableEq

/-- `processBulkDownload` from `downloadWorker.server.ts`.  Steps: fetch
the batch from the catalog (`getSongsByIds`); emit the initial progress;
convert Spotify URLs (per-song failures emit `error` events and are
skipped); emit the download-start reset when conversions happened; run
`yt-dlp` over the batch file, emitting one progress event per completion
marker; in the close handler fail hard when no audio file was produced;
re-list the directory, fail hard when nothing survives the `songFiles`
filter; build the archive; set both catalog flags of every batch song;
emit the terminal `complete` event; record the archive basename and the
success/fail counts on the job.  Every failure funnels through the catch,
which emits one `error` event and re-throws. -/
def processBulkDownload (jobId : Nat) (bulkSongIds : List Nat)
    (conv : Nat → Except String String) (markers : Nat) (dirAfter : List FsEntry)
    (zipFinalizeOk : Bool) (ts : String) (st : DbState) : BulkRun :=
  let songs := st.catalog.filter (fun s => bulkSongIds.contains s.id)
  let totalSongs := songs.length
  let catchEvents := fun (evs : List ProgressData) (e : String) =>
    evs ++ [errorEv jobId ("Bulk download (" ++ toString bulkSongIds.length ++ " songs)") e true]
  if totalSongs = 0 then
    { result := .error "No songs found for bulk download", db := st, job := emptyJob,
      events := catchEvents [] "No songs found for bulk download" }
  else
  let ev0 := progressEv jobId 0 ("Bulk download (" ++ toString totalSongs ++ " songs)") true
  let spotifyTracks := songs.filter (fun s => s.platform = "Spotify")
  let hasSpotify := !spotifyTracks.isEmpty
  let preConv : List ProgressData :=
    if hasSpotify then
      [progressEv jobId 0 ("Converting Spotify URLs (0/" ++ toString spotifyTracks.length ++ ")") true,
       infoEv jobId ("Starting conversion of " ++ toString spotifyTracks.length ++ " Spotify tracks") true]
    else []
  let cs := bulkConvLoop jobId spotifyTracks.length conv songs
    { processedUrls := [], convertedCount := 0, events := [] }
  let postConv : List ProgressData :=
    if hasSpotify && cs.convertedCount > 0 then
      [progressEv jobId 0 ("Starting download of " ++ toString cs.processedUrls.length ++ " songs") true]
    else []
  let evs1 := [ev0] ++ preConv ++ cs.events ++ postConv ++ markerEvents jobId totalSongs markers
  let audioFiles := audioFilter (dirAfter.map (fun e => e.name))
  if audioFiles.isEmpty then
    { result := .error "Failed to download any files", db := st, job := emptyJob,
      events := catchEvents evs1 "Failed to download any files" }
  else
  let evs2 := evs1 ++
    [infoEv jobId ("Successfully downloaded " ++ toString audioFiles.length ++ "/" ++
       toString cs.processedUrls.length ++ " songs") true]
  let songFiles := songFileFilter dirAfter
  if songFiles.isEmpty then
    { result := .error "No files were downloaded successfully", db := st, job := emptyJob,
      events := catchEvents evs2 "No files were downloaded successfully" }
  else
  let zipFilename := "bulk-download-" ++ ts ++ ".zip"
  match createZipFromFilePaths (songFiles.map (fun f => ("tmp/bulk/" ++ f, PathKind.regular)))
      true zipFinalizeOk with
  | .error e =>
    { result := .error e, db := st, job := emptyJob, events := catchEvents evs2 e }
  | .ok _ =>
    let st' := bulkFlagUpdates songs st
    { result := .ok { status := "completed", filePath := zipFilename,
                      songCount := songFiles.length,
                      failedCount := totalSongs - songFiles.length },
      db := st',
      job := { zipPath := some zipFilename, successCount := some songFiles.length,
               failCount := some (totalSongs - songFiles.length), progress := 100 },
      events := evs2 ++
        [completeEv jobId ("Bulk download (" ++ toString songFiles.length ++ "/" ++
           toString totalSongs ++ " songs)") (some zipFilename) true] }

/-- Decides that a list of progress values never decreases. -/
def nonDecreasing : List Nat → Bool
  | [] => true
  | [_] => true
  | a :: b :: rest => a ≤ b && nonDecreasing (b :: rest)

/-- Spotify song of id 10 used by the concrete bulk runs. -/
def songA : SongRow :=
  { id := 10, title := "Alpha Beta", artists := ["X"], platform := "Spotify",
    url := "spotify:track:a", downloaded := false, localFlag := false }

/-- Spotify song of id 20 used by the concrete bulk runs; its extraction
fails (no file of its own appears in the output directory). -/
def songB : SongRow :=
  { id := 20, title := "Gamma Delta", artists := ["Y"], platform := "Spotify",
    url := "spotify:track:b", downloaded := false, localFlag := false }

/-- Healthy database holding the two bulk songs. -/
def bulkSt : DbState := { catalog := [songA, songB], faults := [], runCount := 0 }

/-- A concrete bulk run over songs 10 and 20: both conversions succeed, one
completion marker is seen, and only `songA`'s file is produced. -/
def bulkRunA : BulkRun :=
  processBulkDownload 7 [10, 20] (fun _ => .ok "yt") 1
    [{ name := "Alpha Beta.flac", isFile := true }, { name := "urls.txt", isFile := true }]
    true "T" bulkSt

/-- Environment of the C10 run: resolution and `yt-dlp` succeed and the
output directory holds exactly one file, unrelated to the song. -/
def c10Env : DlEnv := { conv := .ok (some "yt"), ytdlp := none, files := ["zzz.flac"] }

/-- Healthy one-song database for the C10 run. -/
def c10St : DbState := { catalog := [song1], faults := [], runCount := 0 }

/-- Catalog with both flags of `songId` set `true`. -/
def succMap (songId : Nat) (c : Catalog) : Catalog :=
  c.map (fun s => if s.id = songId then { s with downloaded := true, localFlag := true } else s)

/-- Catalog with both flags of `songId` set `false`. -/
def failMap (songId : Nat) (c : Catalog) : Catalog :=
  c.map (fun s => if s.id = songId then { s with downloaded := false, localFlag := false } else s)

/-- Single-download environment where everything succeeds and `yt-dlp`
names the output file conventionally. -/
def succEnv : DlEnv :=
  { conv := .ok (some "yt"), ytdlp := none, files := ["M83 - Midnight City.flac"] }

/-- Single-download environment where the external tool fails. -/
def failEnv : DlEnv :=
  { conv := .ok (some "yt"), ytdlp := some "yt-dlp failed", files := [] }

/-- Database whose only song starts with both flags `true`. -/
def c4St : DbState :=
  { catalog := [{ song1 with downloaded := true, localFlag := true }], faults := [], runCount := 0 }

/-- The full queue-level run of a single job whose external tool fails on
all 3 attempts. -/
def c4Run : Except String SingleResult × DbState × List ProgressData :=
  runSingleJobAttempts downloadQueueAttempts 4 1 failEnv c4St

/-- Name of a produced audio file: no special extension, not hidden. -/
def cleanAudioName (f : String) : Bool :=
  !(strEndsWith f ".txt") && !(strEndsWith f ".bat") && !(strEndsWith f ".zip") &&
  !(strEndsWith f ".part") && !(strStartsWith f ".")

/-- Bulk output directory after `yt-dlp`: the produced audio files plus
the batch file `urls.txt`, all regular files. -/
def dirOf (produced : List String) : List FsEntry :=
  produced.map (fun f => { name := f, isFile := true }) ++
    [{ name := "urls.txt", isFile := true }]

/-! ## Helper lemmas and claim theorems -/

/-- Every list is a substring of itself. -/
theorem listStartsWith_refl (l : List Char) : listStartsWith l l = true := by
  induction l with
  | nil => rfl
  | cons a t ih => simp [listStartsWith, ih]

/-- A string always includes itself. -/
theorem strIncludes_refl (s : String) : strIncludes s s = true := by
  unfold strIncludes
  cases h : s.data with
  | nil => rfl
  | cons a t =>
    unfold listContainsSub
    rw [listStartsWith_refl]
    simp

/-- If `strIncludes hay needle` fails then `hay ≠ needle`. -/
theorem ne_of_not_strIncludes {hay needle : String}
    (h : strIncludes hay needle = false) : hay ≠ needle := by
  intro hEq
  rw [hEq, strIncludes_refl] at h
  exact Bool.noConfusion h

/-- C1, counterexample.  The spec's scenario: the catalog write hits
`SQLITE_BUSY` on the first two attempts and would succeed afterwards.
`updateSongDownloadStatus` (and `updateSongLocalStatus`) surface the busy
error after exactly one attempted call — there is no retry, so the update
does not succeed with 3 attempted calls as claimed. -/
theorem C1_counterexample :
    updateSongDownloadStatus 1 true { catalog := [song1], faults := busyTwiceSchedule, runCount := 0 }
      = (.error .busy, { catalog := [song1], faults := busyTwiceSchedule, runCount := 1 }) ∧
    updateSongLocalStatus 1 true { catalog := [song1], faults := busyTwiceSchedule, runCount := 0 }
      = (.error .busy, { catalog := [song1], faults := busyTwiceSchedule, runCount := 1 }) := by
  exact ⟨rfl, rfl⟩

/-- C1, amended.  `updateSongDownloadStatus` and `updateSongLocalStatus`
perform a single catalog write with no retry: any error, busy included,
propagates immediately after exactly one attempted call.  The repository's
generic `withRetry` helper (used by the playlist-save paths, not by these
two operations) has the claimed behaviour: a busy error on the first two
attempts followed by success yields success with exactly 3 attempted
calls, a non-contention error propagates immediately, and persistent
contention surfaces only after `maxRetries + 1 = 6` attempted calls. -/
theorem C1_amended (songId : Nat) (v : Bool) (c : Catalog) (msg : String) :
    updateSongDownloadStatus songId v { catalog := c, faults := [some .busy], runCount := 0 }
      = (.error .busy, { catalog := c, faults := [some .busy], runCount := 1 }) ∧
    updateSongLocalStatus songId v { catalog := c, faults := [some (.other msg)], runCount := 0 }
      = (.error (.other msg), { catalog := c, faults := [some (.other msg)], runCount := 1 }) ∧
    withRetry (updateSongDownloadStatus songId v) 5
        { catalog := c, faults := busyTwiceSchedule, runCount := 0 }
      = (.ok (), { catalog := setDownloadedSql songId v c, faults := busyTwiceSchedule, runCount := 3 }) ∧
    withRetry (updateSongDownloadStatus songId v) 5
        { catalog := c, faults := [some (.other msg)], runCount := 0 }
      = (.error (.other msg), { catalog := c, faults := [some (.other msg)], runCount := 1 }) ∧
    withRetry (updateSongDownloadStatus songId v) 5
        { catalog := c, faults := List.replicate 6 (some .busy), runCount := 0 }
      = (.error .busy, { catalog := c, faults := List.replicate 6 (some .busy), runCount := 6 }) := by
  refine ⟨rfl, rfl, rfl, rfl, rfl⟩

/-- The per-path loop of the archive builder appends exactly the regular
files (under their basenames) and records exactly the missing paths. -/
theorem zipLoop_spec (entries : List (String × PathKind)) (added failed : List String) :
    zipLoop entries added failed =
      (added.reverse ++ (entries.filter (fun e => e.2 = .regular)).map (fun e => pathBasename e.1),
       failed.reverse ++ (entries.filter (fun e => e.2 = .missing)).map (fun e => e.1)) := by
  induction entries generalizing added failed with
  | nil => simp [zipLoop]
  | cons e rest ih =>
    obtain ⟨p, kind⟩ := e
    cases kind with
    | regular => simp [zipLoop, ih]
    | directory => simp [zipLoop, ih]
    | missing => simp [zipLoop, ih]

/-- C9.  For any input list, the archive build appends exactly the
existing regular files (one entry each, under their basenames), records
exactly the nonexistent paths as failures, skips directories silently and
never throws on account of the invalid subset; a failure of the initial
output-directory creation or of the final flush propagates. -/
theorem C9_theorem (entries : List (String × PathKind)) (b : Bool) :
    createZipFromFilePaths entries true true
      = .ok { added := (entries.filter (fun e => e.2 = .regular)).map (fun e => pathBasename e.1),
              failed := (entries.filter (fun e => e.2 = .missing)).map (fun e => e.1) } ∧
    ((entries.filter (fun e => e.2 = .regular)).map (fun e => pathBasename e.1)).length
      = (entries.filter (fun e => e.2 = .regular)).length ∧
    ((entries.filter (fun e => e.2 = .missing)).map (fun e => e.1)).length
      = (entries.filter (fun e => e.2 = .missing)).length ∧
    createZipFromFilePaths entries false b = .error "mkdir failed" ∧
    createZipFromFilePaths entries true false = .error "finalize failed" := by
  refine ⟨?_, by simp, by simp, rfl, ?_⟩
  · simp [createZipFromFilePaths, zipLoop_spec]
  · simp [createZipFromFilePaths, zipLoop_spec]

/-- C7, counterexample.  The directory holds a file whose base name equals
the title, yet `findMatchingFile` returns a different file: the exact
strategy is a substring test and returns the first hit in listing order,
which here is the earlier file merely containing the title. -/
theorem C7_counterexample :
    FileMatching.findMatchingFile ["xx Midnight City xx.flac", "Midnight City.flac"]
        "Midnight City" none = some "xx Midnight City xx.flac" ∧
    parseName "Midnight City.flac" = "Midnight City" ∧
    (some "xx Midnight City xx.flac" : Option String) ≠ some "Midnight City.flac" := by
  refine ⟨by decide, by decide, by decide⟩

/-- C7, amended.  If the title normalizes to a non-empty string and some
file's base name equals the title, then `findMatchingFile` returns the
exact-substring strategy's hit — the first file in listing order whose
base name contains the title — so the exact strategy takes precedence over
all later strategies, and the equally-named file itself is returned
whenever it is that first hit. -/
theorem C7_amended (files : List String) (t : String) (a : Option String)
    (hnorm : FileMatching.normalizeString t ≠ "")
    (hexists : ∃ f ∈ files, parseName f = t) :
    ∃ g, files.find? (fun file => strIncludes (parseName file) t) = some g ∧
      FileMatching.findMatchingFile files t a = some g := by
  obtain ⟨f, hmem, hpn⟩ := hexists
  have hp : strIncludes (parseName f) t = true := by
    rw [hpn]; exact strIncludes_refl t
  have hsome : (files.find? (fun file => strIncludes (parseName file) t)).isSome := by
    rw [List.find?_isSome]
    exact ⟨f, hmem, hp⟩
  obtain ⟨g, hg⟩ := Option.isSome_iff_exists.mp hsome
  refine ⟨g, hg, ?_⟩
  have hne : files.isEmpty = false := by
    cases files with
    | nil => cases hmem
    | cons x xs => rfl
  unfold FileMatching.findMatchingFile
  simp only [hne, Bool.false_eq_true, if_false, if_neg hnorm, hg]

/-- C8.  The keyword-coverage strategy matches a file exactly when at
least 70% of the title's keywords occur in the normalized file name; for
the three keywords of "Midnight City Lights", a file containing only two
of them (66%) is rejected by the whole matcher while a file containing
all three is accepted (by the keyword strategy, the earlier strategies
failing). -/
theorem C8_theorem :
    (∀ (kws : List String) (file : String),
      FileMatching.keywordStrategyMatches kws file = true ↔
        10 * (kws.filter (fun k =>
            strIncludes (FileMatching.normalizeString (parseName file)) k)).length
          ≥ 7 * kws.length) ∧
    FileMatching.titleKeywords (FileMatching.normalizeString "Midnight City Lights")
      = ["midnight", "city", "lights"] ∧
    FileMatching.findMatchingFile ["some_midnight_lights_remix.flac"]
      "Midnight City Lights" none = none ∧
    FileMatching.findMatchingFile ["some_midnight_city_lights_remix.flac"]
      "Midnight City Lights" none = some "some_midnight_city_lights_remix.flac" := by
  refine ⟨?_, by decide, by decide, by decide⟩
  intro kws file
  unfold FileMatching.keywordStrategyMatches
  rw [decide_eq_true_eq]
  unfold FileMatching.ceil70
  constructor
  · intro h; omega
  · intro h; omega

/-- C10.  With a lone directory file sharing no keyword with the expected
title or artist, every fuzzy strategy fails and `findMatchingFile` still
returns that file through its single-file fallback; consequently the
single job completes, reports the unrelated file's song id and flags the
song `downloaded`/`local` in the catalog. -/
theorem C10_theorem :
    SelfApi.findMatchingFile ["zzz.flac"] "Midnight City" ["M83"] = some "zzz.flac" ∧
    strIncludes (SelfApi.normalizeFilename "zzz") "midnight" = false ∧
    strIncludes (SelfApi.normalizeFilename "zzz") "city" = false ∧
    strIncludes (SelfApi.normalizeFilename "zzz") "m83" = false ∧
    processSingleDownload 3 1 c10Env c10St =
      (.ok { status := "completed", songId := 1 },
       { catalog := [{ song1 with downloaded := true, localFlag := true }],
         faults := [], runCount := 2 },
       [progressEv 3 0 "Midnight City" false, progressEv 3 100 "Midnight City" false,
        completeEv 3 "Midnight City" (some "1") false]) := by
  refine ⟨by decide, by decide, by decide, by decide, rfl⟩

/-- A `db.run` against a fault-free connection applies its update. -/
theorem dbRun_nofault (upd : Catalog → Catalog) (st : DbState) (h : st.faults = []) :
    dbRun upd st
      = (.ok (), { catalog := upd st.catalog, faults := [], runCount := st.runCount + 1 }) := by
  obtain ⟨c, fs, k⟩ := st
  simp only at h
  subst h
  rfl

/-- Fault-free `updateSongDownloadStatus` applies its UPDATE. -/
theorem updateSongDownloadStatus_nofault (songId : Nat) (v : Bool) (st : DbState)
    (h : st.faults = []) :
    updateSongDownloadStatus songId v st
      = (.ok (), { catalog := setDownloadedSql songId v st.catalog, faults := [],
                   runCount := st.runCount + 1 }) :=
  dbRun_nofault _ st h

/-- Fault-free `updateSongLocalStatus` applies its UPDATE. -/
theorem updateSongLocalStatus_nofault (songId : Nat) (v : Bool) (st : DbState)
    (h : st.faults = []) :
    updateSongLocalStatus songId v st
      = (.ok (), { catalog := setLocalSql songId v st.catalog, faults := [],
                   runCount := st.runCount + 1 }) :=
  dbRun_nofault _ st h

/-- Setting both flags of a song is one pointwise catalog map. -/
theorem setBothSql (songId : Nat) (v : Bool) (c : Catalog) :
    setLocalSql songId v (setDownloadedSql songId v c)
      = c.map (fun s => if s.id = songId then { s with downloaded := v, localFlag := v } else s) := by
  induction c with
  | nil => rfl
  | cons s t ih =>
    by_cases h : s.id = songId <;>
      simp [setLocalSql, setDownloadedSql, h] <;>
      simpa [setLocalSql, setDownloadedSql] using ih

/-- The failure path's catalog writes set both flags to `false`. -/
theorem applyFailureUpdates_nofault (songId : Nat) (st : DbState) (h : st.faults = []) :
    applyFailureUpdates songId st
      = { catalog := failMap songId st.catalog, faults := [], runCount := st.runCount + 2 } := by
  unfold applyFailureUpdates
  rw [updateSongDownloadStatus_nofault songId false st h]
  simp only
  rw [updateSongLocalStatus_nofault songId false _ rfl]
  simp only [failMap]
  rw [setBothSql]

/-- A found single job whose download succeeds: flags set, `progress 0`,
`progress 100` and `complete` emitted. -/
theorem processSingleDownload_succeeds (jobId songId : Nat) (env : DlEnv) (st : DbState)
    (song : SongRow) (f : String) (hfa : st.faults = [])
    (hfind : st.catalog.find? (fun s => s.id = songId) = some song)
    (hdl : downloadSpotifySong env song.title song.artists = .ok f) :
    processSingleDownload jobId songId env st =
      (.ok { status := "completed", songId := songId },
       { catalog := succMap songId st.catalog, faults := [], runCount := st.runCount + 2 },
       [progressEv jobId 0 song.title false, progressEv jobId 100 song.title false,
        completeEv jobId song.title (some (toString songId)) false]) := by
  unfold processSingleDownload
  rw [hfind]
  simp only
  rw [hdl]
  simp only
  rw [updateSongDownloadStatus_nofault songId true st hfa]
  simp only
  rw [updateSongLocalStatus_nofault songId true _ rfl]
  simp only [succMap]
  rw [setBothSql]
  rfl

/-- A found single job whose download fails: flags reset, one `error`
event, error re-thrown. -/
theorem processSingleDownload_fails (jobId songId : Nat) (env : DlEnv) (st : DbState)
    (song : SongRow) (e : String) (hfa : st.faults = [])
    (hfind : st.catalog.find? (fun s => s.id = songId) = some song)
    (hdl : downloadSpotifySong env song.title song.artists = .error e) :
    processSingleDownload jobId songId env st =
      (.error e,
       { catalog := failMap songId st.catalog, faults := [], runCount := st.runCount + 2 },
       [progressEv jobId 0 song.title false, errorEv jobId song.title e false]) := by
  unfold processSingleDownload
  rw [hfind]
  simp only
  rw [hdl]
  simp only
  rw [applyFailureUpdates_nofault songId st hfa]
  rfl

/-- Setting both flags preserves which row `find?` locates. -/
theorem find?_map_flags (c : Catalog) (songId : Nat) (v : Bool) (song : SongRow)
    (h : c.find? (fun s => s.id = songId) = some song) :
    (c.map (fun s => if s.id = songId then { s with downloaded := v, localFlag := v } else s)).find?
        (fun s => s.id = songId)
      = some { song with downloaded := v, localFlag := v } := by
  induction c with
  | nil => simp [List.find?] at h
  | cons hd tl ih =>
    rw [List.map_cons]
    by_cases hh : hd.id = songId
    · rw [List.find?_cons_of_pos _ (by simpa using hh)] at h
      injection h with h'
      subst h'
      rw [List.find?_cons_of_pos _ (by simp [hh])]
      simp [hh]
    · rw [List.find?_cons_of_neg _ (by simpa using hh)] at h
      rw [List.find?_cons_of_neg _ (by simp [hh])]
      exact ih h

/-- Resetting both flags twice is the same as once. -/
theorem failMap_idem (songId : Nat) (c : Catalog) :
    failMap songId (failMap songId c) = failMap songId c := by
  unfold failMap
  rw [List.map_map]
  congr 1
  funext s
  by_cases h : s.id = songId <;> simp [h]

/-- C3.  For a single job whose song id resolves: a successful download
sets both catalog flags `true` and emits the terminal `complete` event
after `progress 100`; a failed download sets both flags `false`, emits one
`error` event and re-raises the error as the job's failure. -/
theorem C3_theorem (jobId songId : Nat) (env : DlEnv) (st : DbState) (song : SongRow)
    (hfa : st.faults = [])
    (hfind : st.catalog.find? (fun s => s.id = songId) = some song) :
    (∀ f, downloadSpotifySong env song.title song.artists = .ok f →
      processSingleDownload jobId songId env st =
        (.ok { status := "completed", songId := songId },
         { catalog := succMap songId st.catalog, faults := [], runCount := st.runCount + 2 },
         [progressEv jobId 0 song.title false, progressEv jobId 100 song.title false,
          completeEv jobId song.title (some (toString songId)) false])) ∧
    (∀ e, downloadSpotifySong env song.title song.artists = .error e →
      processSingleDownload jobId songId env st =
        (.error e,
         { catalog := failMap songId st.catalog, faults := [], runCount := st.runCount + 2 },
         [progressEv jobId 0 song.title false, errorEv jobId song.title e false])) :=
  ⟨fun f hf => processSingleDownload_succeeds jobId songId env st song f hfa hfind hf,
   fun e he => processSingleDownload_fails jobId songId env st song e hfa hfind he⟩

/-- C3, witness: the success and the failure branch of the claim at a
concrete song, environment and database. -/
theorem C3_witness :
    processSingleDownload 1 1 succEnv { catalog := [song1], faults := [], runCount := 0 } =
      (.ok { status := "completed", songId := 1 },
       { catalog := succMap 1 [song1], faults := [], runCount := 2 },
       [progressEv 1 0 song1.title false, progressEv 1 100 song1.title false,
        completeEv 1 song1.title (some (toString 1)) false]) ∧
    processSingleDownload 1 1 failEnv { catalog := [song1], faults := [], runCount := 0 } =
      (.error "yt-dlp failed",
       { catalog := failMap 1 [song1], faults := [], runCount := 2 },
       [progressEv 1 0 song1.title false, errorEv 1 song1.title "yt-dlp failed" false]) :=
  ⟨(C3_theorem 1 1 succEnv { catalog := [song1], faults := [], runCount := 0 } song1 rfl
      (by decide)).1 "M83 - Midnight City.flac" (by decide),
   (C3_theorem 1 1 failEnv { catalog := [song1], faults := [], runCount := 0 } song1 rfl
      (by decide)).2 "yt-dlp failed" (by decide)⟩

/-- C4, counterexample.  When the external tool fails on all 3 queue-level
attempts the job does end failed with both catalog flags `false`, but the
worker's catch emits one `error`-typed event per attempt: 3 over the whole
run, not exactly once as claimed. -/
theorem C4_counterexample :
    c4Run.1 = .error "yt-dlp failed" ∧
    c4Run.2.1.catalog = [song1] ∧
    countErrorEvents c4Run.2.2 = 3 ∧
    countErrorEvents c4Run.2.2 ≠ 1 := by
  refine ⟨rfl, rfl, rfl, by decide⟩

/-- C4, amended.  If the external tool fails on all 3 queue-level attempts
of a single job, the job ends with the error as its failure, the song's
catalog flags are both `false`, and a terminal `error`-typed event is
emitted exactly once per attempt — 3 times over the whole run. -/
theorem C4_amended (jobId songId : Nat) (env : DlEnv) (st : DbState) (song : SongRow)
    (e : String) (hfa : st.faults = [])
    (hfind : st.catalog.find? (fun s => s.id = songId) = some song)
    (hdl : downloadSpotifySong env song.title song.artists = .error e) :
    runSingleJobAttempts downloadQueueAttempts jobId songId env st =
      (.error e,
       { catalog := failMap songId st.catalog, faults := [], runCount := st.runCount + 6 },
       [progressEv jobId 0 song.title false, errorEv jobId song.title e false,
        progressEv jobId 0 song.title false, errorEv jobId song.title e false,
        progressEv jobId 0 song.title false, errorEv jobId song.title e false]) ∧
    countErrorEvents
      [progressEv jobId 0 song.title false, errorEv jobId song.title e false,
       progressEv jobId 0 song.title false, errorEv jobId song.title e false,
       progressEv jobId 0 song.title false, errorEv jobId song.title e false]
      = downloadQueueAttempts := by
  have h1 := processSingleDownload_fails jobId songId env st song e hfa hfind hdl
  have hfind1 := find?_map_flags st.catalog songId false song hfind
  have h2 := processSingleDownload_fails jobId songId env
    { catalog := failMap songId st.catalog, faults := [], runCount := st.runCount + 2 }
    { song with downloaded := false, localFlag := false } e rfl hfind1 hdl
  have hfind2 := find?_map_flags (failMap songId st.catalog) songId false
    { song with downloaded := false, localFlag := false } hfind1
  have h3 := processSingleDownload_fails jobId songId env
    { catalog := failMap songId (failMap songId st.catalog), faults := [],
      runCount := st.runCount + 2 + 2 }
    { song with downloaded := false, localFlag := false } e rfl hfind2 hdl
  constructor
  · show runSingleJobAttempts 3 jobId songId env st = _
    unfold runSingleJobAttempts
    rw [h1]
    simp only
    unfold runSingleJobAttempts
    rw [h2]
    simp only
    unfold runSingleJobAttempts
    rw [h3]
    simp only [failMap_idem]
    rfl
  · rfl

/-- C4, witness: the amended statement at a concrete song, database and
failing environment. -/
theorem C4_witness :
    runSingleJobAttempts downloadQueueAttempts 4 1 failEnv c4St =
      (.error "yt-dlp failed",
       { catalog := failMap 1 c4St.catalog, faults := [], runCount := c4St.runCount + 6 },
       [progressEv 4 0 song1.title false, errorEv 4 song1.title "yt-dlp failed" false,
        progressEv 4 0 song1.title false, errorEv 4 song1.title "yt-dlp failed" false,
        progressEv 4 0 song1.title false, errorEv 4 song1.title "yt-dlp failed" false]) ∧
    countErrorEvents
      [progressEv 4 0 song1.title false, errorEv 4 song1.title "yt-dlp failed" false,
       progressEv 4 0 song1.title false, errorEv 4 song1.title "yt-dlp failed" false,
       progressEv 4 0 song1.title false, errorEv 4 song1.title "yt-dlp failed" false]
      = downloadQueueAttempts := by
  have h := C4_amended 4 1 failEnv c4St { song1 with downloaded := true, localFlag := true }
    "yt-dlp failed" rfl (by decide) (by decide)
  exact h

/-- C6, counterexample.  A successful bulk run with Spotify tracks (no
`usercancelled` event anywhere): the conversion phase climbs to 100, then
the worker resets progress to 0 when the download phase starts, so the
sequence of `progress` values is not non-decreasing. -/
theorem C6_counterexample :
    bulkRunA.result =
      .ok { status := "completed", filePath := "bulk-download-T.zip",
            songCount := 1, failedCount := 1 } ∧
    (bulkRunA.events.filter (fun e => e.type = .usercancelled)).length = 0 ∧
    progressValues bulkRunA.events = [0, 0, 0, 50, 50, 100, 0, 50] ∧
    nonDecreasing (progressValues bulkRunA.events) = false := by
  refine ⟨rfl, rfl, rfl, rfl⟩

/-- C6, amended.  For a single job that succeeds, the sequence of
`progress` values carried by its `progress`-typed events is exactly
`[0, 100]`: monotonically non-decreasing and terminating at 100.  Bulk
jobs are exempt: their progress resets to 0 between the Spotify-conversion
phase and the download phase (see the accompanying counterexample). -/
theorem C6_amended (jobId songId : Nat) (env : DlEnv) (st : DbState) (song : SongRow)
    (f : String) (hfa : st.faults = [])
    (hfind : st.catalog.find? (fun s => s.id = songId) = some song)
    (hdl : downloadSpotifySong env song.title song.artists = .ok f) :
    progressValues (processSingleDownload jobId songId env st).2.2 = [0, 100] ∧
    nonDecreasing (progressValues (processSingleDownload jobId songId env st).2.2) = true ∧
    (progressValues (processSingleDownload jobId songId env st).2.2).getLast? = some 100 := by
  have h := processSingleDownload_succeeds jobId songId env st song f hfa hfind hdl
  rw [h]
  exact ⟨rfl, rfl, rfl⟩

/-- C6, witness: the amended single-job statement at a concrete song,
database and successful environment. -/
theorem C6_witness :
    progressValues (processSingleDownload 1 1 succEnv
        { catalog := [song1], faults := [], runCount := 0 }).2.2 = [0, 100] ∧
    nonDecreasing (progressValues (processSingleDownload 1 1 succEnv
        { catalog := [song1], faults := [], runCount := 0 }).2.2) = true ∧
    (progressValues (processSingleDownload 1 1 succEnv
        { catalog := [song1], faults := [], runCount := 0 }).2.2).getLast? = some 100 :=
  C6_amended 1 1 succEnv { catalog := [song1], faults := [], runCount := 0 } song1
    "M83 - Midnight City.flac" rfl (by decide) (by decide)

/-- The close handler's audio filter keeps exactly the produced files and
drops the batch file. -/
theorem audioFilter_clean (produced : List String)
    (h : ∀ f ∈ produced, cleanAudioName f = true) :
    audioFilter (produced ++ ["urls.txt"]) = produced := by
  induction produced with
  | nil => rfl
  | cons a t ih =>
    have ha := h a (List.mem_cons_self a t)
    have ht := ih (fun f hf => h f (List.mem_cons_of_mem a hf))
    simp only [cleanAudioName, Bool.and_eq_true, Bool.not_eq_true'] at ha
    unfold audioFilter at ht ⊢
    simp only [List.cons_append, List.filter_cons, ha.1.1.1.1, ha.1.1.1.2, ha.1.1.2,
      Bool.not_false, Bool.and_self, if_true]
    rw [ht]

/-- The pre-zip `songFiles` selection keeps exactly the produced files. -/
theorem songFileFilter_clean (produced : List String)
    (h : ∀ f ∈ produced, cleanAudioName f = true) :
    songFileFilter (dirOf produced) = produced := by
  induction produced with
  | nil => rfl
  | cons a t ih =>
    have ha := h a (List.mem_cons_self a t)
    have ht := ih (fun f hf => h f (List.mem_cons_of_mem a hf))
    simp only [cleanAudioName, Bool.and_eq_true, Bool.not_eq_true'] at ha
    unfold songFileFilter dirOf at ht ⊢
    simp only [List.map_cons, List.cons_append, List.filter_cons, ha.1.1.1.1, ha.1.1.1.2,
      ha.1.1.2, ha.1.2, ha.2, Bool.or_self, Bool.or_false, Bool.false_or, Bool.not_false,
      Bool.and_self, Bool.and_true, if_true]
    rw [ht]

/-- The archive loop on regular files only: every file is appended. -/
theorem zipLoop_regular (paths : List String) (added failed : List String) :
    zipLoop (paths.map (fun f => ("tmp/bulk/" ++ f, PathKind.regular))) added failed
      = (added.reverse ++ paths.map (fun f => pathBasename ("tmp/bulk/" ++ f)),
         failed.reverse) := by
  induction paths generalizing added with
  | nil => simp [zipLoop]
  | cons a t ih => simp [zipLoop, ih]

/-- The archive build over regular files succeeds with one entry each. -/
theorem createZip_regular (paths : List String) :
    createZipFromFilePaths (paths.map (fun f => ("tmp/bulk/" ++ f, PathKind.regular))) true true
      = .ok { added := paths.map (fun f => pathBasename ("tmp/bulk/" ++ f)), failed := [] } := by
  unfold createZipFromFilePaths
  rw [zipLoop_regular]
  rfl

/-- A build whose final flush fails reports the finalize error whatever
the inputs were. -/
theorem createZip_finalize_fails (entries : List (String × PathKind)) :
    createZipFromFilePaths entries true false = .error "finalize failed" := by
  unfold createZipFromFilePaths
  rw [zipLoop_spec]
  rfl

/-- The bulk flag loop over a fault-free connection folds the per-song
flag updates over the catalog, two writes per song. -/
theorem bulkFlagUpdates_nofault (songs : List SongRow) (st : DbState) (h : st.faults = []) :
    bulkFlagUpdates songs st
      = { catalog := songs.foldl (fun c song => succMap song.id c) st.catalog,
          faults := [], runCount := st.runCount + 2 * songs.length } := by
  induction songs generalizing st with
  | nil =>
    obtain ⟨c, fs, k⟩ := st
    simp only at h
    subst h
    simp [bulkFlagUpdates]
  | cons a t ih =>
    unfold bulkFlagUpdates
    rw [updateSongDownloadStatus_nofault a.id true st h]
    simp only
    rw [updateSongLocalStatus_nofault a.id true _ rfl]
    simp only
    rw [ih _ rfl]
    simp only [DbState.mk.injEq]
    refine ⟨?_, trivial, by simp [List.length_cons]; omega⟩
    rw [setBothSql]
    rfl

/-- Folding the per-song flag updates acts pointwise: a row gains both
flags exactly when some batch song shares its id. -/
theorem foldl_succMap_any (songs : List SongRow) (c : Catalog) :
    songs.foldl (fun acc song => succMap song.id acc) c
      = c.map (fun s =>
          if songs.any (fun t => t.id = s.id) then
            { s with downloaded := true, localFlag := true } else s) := by
  induction songs generalizing c with
  | nil => simp
  | cons a t ih =>
    rw [List.foldl_cons, ih]
    unfold succMap
    rw [List.map_map]
    congr 1
    funext s
    by_cases h1 : s.id = a.id
    · simp [Function.comp, h1]
    · have h1' : ¬ a.id = s.id := fun hEq => h1 hEq.symm
      simp [Function.comp, h1, h1']

/-- Over the batch selected from the catalog itself, the flag fold sets
both flags of exactly the requested rows. -/
theorem foldl_succMap_filter (ids : List Nat) (c : Catalog) :
    (c.filter (fun s => ids.contains s.id)).foldl (fun acc song => succMap song.id acc) c
      = c.map (fun s =>
          if ids.contains s.id then { s with downloaded := true, localFlag := true } else s) := by
  rw [foldl_succMap_any]
  apply List.map_congr_left
  intro s hs
  by_cases h : ids.contains s.id
  · have hany : (c.filter (fun r => ids.contains r.id)).any (fun t => t.id = s.id) = true :=
      List.any_eq_true.mpr ⟨s, List.mem_filter.mpr ⟨hs, by simpa using h⟩, by simp⟩
    rw [hany, h]
  · have hany : (c.filter (fun r => ids.contains r.id)).any (fun t => t.id = s.id) = false := by
      rw [List.any_eq_false]
      intro x hx
      have hmem := List.mem_filter.mp hx
      simp only [decide_eq_true_eq]
      intro hEq
      rw [hEq] at hmem
      exact h (by simpa using hmem.2)
    have h' : ids.contains s.id = false := by simpa using h
    rw [hany, h']

/-- Listing names of the bulk directory model. -/
theorem map_name_dirOf (produced : List String) :
    (dirOf produced).map (fun e => e.name) = produced ++ ["urls.txt"] := by
  unfold dirOf
  induction produced with
  | nil => rfl
  | cons a t ih => simpa using ih

/-- Successful bulk run: at least one clean audio file was produced and
the archive flush succeeds.  Gives the job result, the persisted job
record and the final database. -/
theorem processBulkDownload_success (jobId : Nat) (ids : List Nat)
    (conv : Nat → Except String String) (markers : Nat) (produced : List String)
    (ts : String) (st : DbState)
    (hfa : st.faults = [])
    (hn : (st.catalog.filter (fun s => ids.contains s.id)).length ≠ 0)
    (hclean : ∀ f ∈ produced, cleanAudioName f = true)
    (hne : produced ≠ []) :
    (processBulkDownload jobId ids conv markers (dirOf produced) true ts st).result
      = .ok { status := "completed", filePath := "bulk-download-" ++ ts ++ ".zip",
              songCount := produced.length,
              failedCount := (st.catalog.filter (fun s => ids.contains s.id)).length
                - produced.length } ∧
    (processBulkDownload jobId ids conv markers (dirOf produced) true ts st).job
      = { zipPath := some ("bulk-download-" ++ ts ++ ".zip"),
          successCount := some produced.length,
          failCount := some ((st.catalog.filter (fun s => ids.contains s.id)).length
            - produced.length),
          progress := 100 } ∧
    (processBulkDownload jobId ids conv markers (dirOf produced) true ts st).db
      = { catalog := st.catalog.map (fun s =>
            if ids.contains s.id then { s with downloaded := true, localFlag := true } else s),
          faults := [],
          runCount := st.runCount
            + 2 * (st.catalog.filter (fun s => ids.contains s.id)).length } := by
  have hmapname := map_name_dirOf produced
  have haudio : audioFilter ((dirOf produced).map (fun e => e.name)) = produced := by
    rw [hmapname]
    exact audioFilter_clean produced hclean
  have hsongf : songFileFilter (dirOf produced) = produced := songFileFilter_clean produced hclean
  have hae : produced.isEmpty = false := by
    cases produced with
    | nil => exact absurd rfl hne
    | cons a t => rfl
  have hzip := createZip_regular produced
  refine ⟨?_, ?_, ?_⟩
  all_goals
    simp only [processBulkDownload]
    rw [if_neg hn, haudio, hsongf, hae]
    simp only [Bool.false_eq_true, if_false]
    rw [hzip]
  simp only
  rw [bulkFlagUpdates_nofault _ _ hfa, foldl_succMap_filter]

/-- Bulk run producing no audio file at all: the close handler rejects,
the job throws and the database is untouched. -/
theorem processBulkDownload_zero (jobId : Nat) (ids : List Nat)
    (conv : Nat → Except String String) (markers : Nat) (ts : String) (st : DbState)
    (hn : (st.catalog.filter (fun s => ids.contains s.id)).length ≠ 0) :
    (processBulkDownload jobId ids conv markers (dirOf []) true ts st).result
      = .error "Failed to download any files" ∧
    (processBulkDownload jobId ids conv markers (dirOf []) true ts st).db = st := by
  refine ⟨?_, ?_⟩ <;>
  · simp only [processBulkDownload]
    rw [if_neg hn]
    rfl

/-- Bulk run whose archive flush fails: the error propagates as the
job's failure and no catalog flag is touched. -/
theorem processBulkDownload_finalize (jobId : Nat) (ids : List Nat)
    (conv : Nat → Except String String) (markers : Nat) (produced : List String)
    (ts : String) (st : DbState)
    (hn : (st.catalog.filter (fun s => ids.contains s.id)).length ≠ 0)
    (hclean : ∀ f ∈ produced, cleanAudioName f = true)
    (hne : produced ≠ []) :
    (processBulkDownload jobId ids conv markers (dirOf produced) false ts st).result
      = .error "finalize failed" ∧
    (processBulkDownload jobId ids conv markers (dirOf produced) false ts st).db = st := by
  have hmapname := map_name_dirOf produced
  have haudio : audioFilter ((dirOf produced).map (fun e => e.name)) = produced := by
    rw [hmapname]
    exact audioFilter_clean produced hclean
  have hsongf : songFileFilter (dirOf produced) = produced := songFileFilter_clean produced hclean
  have hae : produced.isEmpty = false := by
    cases produced with
    | nil => exact absurd rfl hne
    | cons a t => rfl
  have hzip := createZip_finalize_fails
    (produced.map (fun f => ("tmp/bulk/" ++ f, PathKind.regular)))
  refine ⟨?_, ?_⟩ <;>
  · simp only [processBulkDownload]
    rw [if_neg hn, haudio, hsongf, hae]
    simp only [Bool.false_eq_true, if_false]
    rw [hzip]

/-- C2.  A bulk job over requested songs completes exactly when at least
one audio file was produced and the archive was written: zero produced
files is a hard failure (the job throws), an archive-flush failure also
fails the job, and with `k ≥ 1` produced files the job completes with
`successCount = k` and `failCount = n - k` recorded on the job record
together with the archive's basename. -/
theorem C2_theorem (jobId : Nat) (ids : List Nat) (conv : Nat → Except String String)
    (markers : Nat) (produced : List String) (ts : String) (st : DbState)
    (hfa : st.faults = [])
    (hn : 0 < (st.catalog.filter (fun s => ids.contains s.id)).length)
    (hclean : ∀ f ∈ produced, cleanAudioName f = true) :
    (produced = [] →
      (processBulkDownload jobId ids conv markers (dirOf produced) true ts st).result
        = .error "Failed to download any files") ∧
    (produced ≠ [] →
      (processBulkDownload jobId ids conv markers (dirOf produced) true ts st).result
        = .ok { status := "completed", filePath := "bulk-download-" ++ ts ++ ".zip",
                songCount := produced.length,
                failedCount := (st.catalog.filter (fun s => ids.contains s.id)).length
                  - produced.length } ∧
      (processBulkDownload jobId ids conv markers (dirOf produced) true ts st).job
        = { zipPath := some ("bulk-download-" ++ ts ++ ".zip"),
            successCount := some produced.length,
            failCount := some ((st.catalog.filter (fun s => ids.contains s.id)).length
              - produced.length),
            progress := 100 }) ∧
    (produced ≠ [] →
      (processBulkDownload jobId ids conv markers (dirOf produced) false ts st).result
        = .error "finalize failed") := by
  have hn' := Nat.pos_iff_ne_zero.mp hn
  refine ⟨?_, ?_, ?_⟩
  · intro hp
    subst hp
    exact (processBulkDownload_zero jobId ids conv markers ts st hn').1
  · intro hp
    obtain ⟨h1, h2, _⟩ :=
      processBulkDownload_success jobId ids conv markers produced ts st hfa hn' hclean hp
    exact ⟨h1, h2⟩
  · intro hp
    exact (processBulkDownload_finalize jobId ids conv markers produced ts st hn' hclean hp).1

/-- C2, witness: the success case (1 of 2 songs produced a file) and the
zero-file failure case at concrete inputs. -/
theorem C2_witness :
    (processBulkDownload 7 [10, 20] (fun _ => .ok "yt") 1 (dirOf ["Alpha Beta.flac"])
        true "T" bulkSt).result
      = .ok { status := "completed", filePath := "bulk-download-T.zip",
              songCount := 1, failedCount := 1 } ∧
    (processBulkDownload 7 [10, 20] (fun _ => .ok "yt") 0 (dirOf []) true "T" bulkSt).result
      = .error "Failed to download any files" :=
  ⟨((C2_theorem 7 [10, 20] (fun _ => .ok "yt") 1 ["Alpha Beta.flac"] "T" bulkSt rfl
      (by decide) (by decide)).2.1 (by decide)).1,
   (C2_theorem 7 [10, 20] (fun _ => .ok "yt") 0 [] "T" bulkSt rfl
      (by decide) (by decide)).1 rfl⟩

/-- C5, counterexample.  In the concrete bulk run only `songA`'s file was
produced (`failedCount = 1`, the archive holds one file), yet the catalog
row of the failed song `songB` is also set `downloaded = local = true`:
it does not remain unchanged. -/
theorem C5_counterexample :
    bulkRunA.result = .ok { status := "completed", filePath := "bulk-download-T.zip",
                            songCount := 1, failedCount := 1 } ∧
    bulkRunA.db.catalog =
      [{ songA with downloaded := true, localFlag := true },
       { songB with downloaded := true, localFlag := true }] ∧
    ({ songB with downloaded := true, localFlag := true } : SongRow) ≠ songB := by
  refine ⟨rfl, rfl, by decide⟩

/-- C5, amended.  After a bulk job completes, the worker sets
`downloaded`/`local` to `true` for every requested song found in the
catalog — regardless of whether its own file could be associated with the
archive — while the rows of songs outside the request are unchanged. -/
theorem C5_amended (jobId : Nat) (ids : List Nat) (conv : Nat → Except String String)
    (markers : Nat) (produced : List String) (ts : String) (st : DbState)
    (hfa : st.faults = [])
    (hn : 0 < (st.catalog.filter (fun s => ids.contains s.id)).length)
    (hclean : ∀ f ∈ produced, cleanAudioName f = true)
    (hne : produced ≠ []) :
    (processBulkDownload jobId ids conv markers (dirOf produced) true ts st).db.catalog
      = st.catalog.map (fun s =>
          if ids.contains s.id then { s with downloaded := true, localFlag := true } else s) := by
  have h := (processBulkDownload_success jobId ids conv markers produced ts st hfa
    (Nat.pos_iff_ne_zero.mp hn) hclean hne).2.2
  rw [h]

/-- C5, witness: the amended statement at the concrete two-song bulk run. -/
theorem C5_witness :
    (processBulkDownload 7 [10, 20] (fun _ => .ok "yt") 1 (dirOf ["Alpha Beta.flac"])
        true "T" bulkSt).db.catalog
      = bulkSt.catalog.map (fun s =>
          if [10, 20].contains s.id then { s with downloaded := true, localFlag := true } else s) :=
  C5_amended 7 [10, 20] (fun _ => .ok "yt") 1 ["Alpha Beta.flac"] "T" bulkSt rfl
    (by decide) (by decide) (by decide)

/-- C7, witness: the amended statement when the equally-named file is the
only file, so it is returned itself. -/
theorem C7_witness :
    ∃ g, (["Midnight City.flac"].find?
        (fun file => strIncludes (parseName file) "Midnight City")) = some g ∧
      FileMatching.findMatchingFile ["Midnight City.flac"] "Midnight City" none = some g :=
  C7_amended ["Midnight City.flac"] "Midnight City" none (by decide)
    ⟨"Midnight City.flac", by decide, by decide⟩
